import Mathlib

/-!
Verification development for the deployment-pipeline monitor of
`src/deployment_pipeline_monitor.py` (repository glassBead-tc/weather-mcp).

The Python functions `check_github_repo_status`, `check_smithery_deployment`
and `monitor_deployment_pipeline` are shallowly embedded below.  Modelling
conventions, each stated where it is used:

* The two outbound HTTP providers are abstracted as per-iteration behavior
  traces (`GithubTrace`, `SmitheryTrace`): for each loop iteration the trace
  says either what payload the provider's HTTP exchange delivered or that an
  exception was raised during the exchange.  The `owner`/`repo`/`branch`
  arguments only select which external service answers, so they are folded
  into the trace and otherwise appear only in messages.
* Wall-clock time is an integer number of seconds.  All operations inside one
  loop iteration are modelled as instantaneous; time advances only at
  `await asyncio.sleep(check_interval_seconds)`, by
  `max check_interval_seconds 0` seconds (a non-positive argument makes
  `asyncio.sleep` return immediately).
* The Python report field `duration_minutes` is modelled in seconds
  (`durationSeconds`); the source's `round(x / 60, 2)` float formatting is
  elided, the modelled quantity is the same elapsed-seconds value.
* The `while` loop is driven by fuel.  Fuel `60 * max_duration_minutes + 1`
  suffices whenever the interval is positive (each iteration then advances
  the clock by at least one second); `MonitorResult.outOfFuel` marks the
  model artifact of a loop whose model clock never advances.
* When `max_duration_minutes ≤ 0` the loop body never runs, so the final
  `return` statement reads the never-assigned local `github_status`: the real
  code raises `UnboundLocalError` there, after the `timeout` timeline event
  was appended.  This is `MonitorResult.unboundLocal`, carrying the timeline
  list as built before the crash.
-/

/-- Behavior of one provider interaction during one loop iteration: either the
HTTP exchange succeeds and delivers a payload, or some exception is raised
while talking to the provider. -/
inductive ProviderBehavior (α : Type) where
  | responds (payload : α)
  | raises (msg : String)
deriving DecidableEq, Repr

/-- One workflow run as reshaped by `check_github_repo_status` (source lines
100–111).  Of the reshaped fields only `id`, `status`, `conclusion` and
`html_url` are consumed by `monitor_deployment_pipeline`; the others ride
along unused and are omitted.  `conclusion` is nullable in the GitHub API
(null while the run is not finished). -/
structure WorkflowRun where
  id : Nat
  status : String
  conclusion : Option String
  html_url : String
deriving DecidableEq, Repr

/-- Return value of `check_github_repo_status` as consumed downstream: either
the success dictionary (of which only `workflow_runs` is read by the monitor)
or the `{"error": ...}` dictionary produced by the `except` clauses. -/
inductive GithubStatus where
  | ok (workflow_runs : List WorkflowRun)
  | error (msg : String)
deriving DecidableEq, Repr

/-- Python `github_status.get("workflow_runs", [])`: the error dictionary has
no `workflow_runs` key, so it yields the empty list. -/
def GithubStatus.workflowRunsGet : GithubStatus → List WorkflowRun
  | .ok runs => runs
  | .error _ => []

/-- Source lines 70–127: the whole body of `check_github_repo_status` is in a
`try` whose `except` clauses catch every exception and return an error
dictionary, so a provider failure never propagates to the caller. -/
def check_github_repo_status : ProviderBehavior (List WorkflowRun) → GithubStatus
  | .responds runs => .ok runs
  | .raises e => .error ("GitHub API error: " ++ e)

/-- One Smithery registry server as seen by `check_smithery_deployment`:
`deploymentUrl` from the detail response (possibly null or empty) and the
outcome of the health probe issued when the url is truthy (source lines
167–185; `probeHealthy` is `status_code in [200, 401]`, or false when the
probe itself raises). -/
structure SmitheryServer where
  deploymentUrl : Option String
  probeHealthy : Bool
deriving DecidableEq, Repr

/-- Python truthiness of the optional `deployment_url` string: None and the
empty string are falsy. -/
def optStrTruthy : Option String → Bool
  | none => false
  | some s => s ≠ ""

/-- A server's `health_status["healthy"]` field: false when no truthy
deployment url (the probe is never issued, the initial `not_deployed` record
stands), otherwise the probe outcome (source lines 168–185). -/
def SmitheryServer.healthHealthy (s : SmitheryServer) : Bool :=
  optStrTruthy s.deploymentUrl && s.probeHealthy

/-- Return value of `check_smithery_deployment` as consumed downstream: the
full dictionary with `deployed` and `summary.healthy_servers`, the
no-servers dictionary (`deployed: False`, no `summary` key), or the
`{"error": ...}` dictionary from the catch-all `except`. -/
inductive SmitheryStatus where
  | ok (deployed : Bool) (healthy_servers : Nat)
  | noServers
  | error (msg : String)
deriving DecidableEq, Repr

/-- Source lines 141–218: search the registry; empty server list returns the
no-servers dictionary; otherwise `deployed` is whether some server has a
truthy deployment url and `summary.healthy_servers` counts servers whose
health status is healthy; any exception yields the error dictionary. -/
def check_smithery_deployment : ProviderBehavior (List SmitheryServer) → SmitheryStatus
  | .raises e => .error ("Smithery API error: " ++ e)
  | .responds servers =>
    if servers.isEmpty then .noServers
    else
      .ok (decide (0 < (servers.filter (fun s => optStrTruthy s.deploymentUrl)).length))
        ((servers.filter SmitheryServer.healthHealthy).length)

/-- Python `smithery_status.get("deployed", False)`. -/
def SmitheryStatus.deployedGet : SmitheryStatus → Bool
  | .ok d _ => d
  | .noServers => false
  | .error _ => false

/-- Python `smithery_status.get("summary", {}).get("healthy_servers", 0)`. -/
def SmitheryStatus.healthyServersGet : SmitheryStatus → Nat
  | .ok _ h => h
  | .noServers => 0
  | .error _ => 0

/-- A timeline entry as built by the inner `add_timeline_event` (source lines
234–240): timestamp, event type, human message, auxiliary payload. -/
structure TimelineEvent where
  timestamp : Int
  event_type : String
  message : String
  data : List (String × String)
deriving DecidableEq, Repr

/-- Source lines 234–240: append one event, stamped with the current clock,
to the session timeline (`data or {}` turns an absent payload into the empty
mapping). -/
def add_timeline_event (timeline : List TimelineEvent) (now : Int)
    (event_type message : String) (data : List (String × String)) :
    List TimelineEvent :=
  timeline ++ [{ timestamp := now, event_type := event_type,
                 message := message, data := data }]

/-- Python f-string rendering of a possibly-None string (None prints as
"None", a plain string prints as itself). -/
def pyOptStr : Option String → String
  | none => "None"
  | some s => s

/-- The `current_state` dictionary of one loop iteration (source lines
252–268).  Note `latest_run_conclusion` conflates "no runs" with a null
`conclusion` field, exactly as the Python `None` does. -/
structure CurrentState where
  has_recent_activity : Bool
  latest_run_status : Option String
  latest_run_conclusion : Option String
  deployed : Bool
  healthy_servers : Nat
deriving DecidableEq, Repr

/-- Derivation of `current_state` from the two provider responses (source
lines 252–268). -/
def currentStateOf (gh : GithubStatus) (sm : SmitheryStatus) : CurrentState :=
  { has_recent_activity := decide (0 < gh.workflowRunsGet.length)
    latest_run_status := gh.workflowRunsGet.head?.map (fun r => r.status)
    latest_run_conclusion :=
      match gh.workflowRunsGet.head? with
      | some r => r.conclusion
      | none => none
    deployed := sm.deployedGet
    healthy_servers := sm.healthyServersGet }

/-- The success condition of source lines 289–292. -/
def successCond (cs : CurrentState) : Bool :=
  cs.latest_run_status == some "completed"
    && cs.latest_run_conclusion == some "success"
    && cs.deployed
    && decide (0 < cs.healthy_servers)

/-- The failure condition of source lines 308–309: status completed and
`conclusion not in ["success", None]`. -/
def failureCond (cs : CurrentState) : Bool :=
  cs.latest_run_status == some "completed"
    && !([some "success", (none : Option String)].contains cs.latest_run_conclusion)

/-- The timeline events appended by one loop iteration before the terminal
checks (source lines 264–286): a `github_success`/`github_failure` event
whenever the most recent run has status completed, and a `smithery_status`
event whenever the deployment response says deployed. -/
def iterationEvents (now : Int) (gh : GithubStatus) (sm : SmitheryStatus) :
    List TimelineEvent :=
  (match gh.workflowRunsGet.head? with
    | some latest_run =>
      if latest_run.status == "completed" then
        if latest_run.conclusion == some "success" then
          [{ timestamp := now, event_type := "github_success",
             message := "GitHub workflow completed successfully",
             data := [("run_id", toString latest_run.id), ("url", latest_run.html_url)] }]
        else
          [{ timestamp := now, event_type := "github_failure",
             message := "GitHub workflow failed: " ++ pyOptStr latest_run.conclusion,
             data := [("run_id", toString latest_run.id), ("url", latest_run.html_url)] }]
      else []
    | none => []) ++
  (if sm.deployedGet then
    [{ timestamp := now, event_type := "smithery_status",
       message := "Smithery: " ++ toString sm.healthyServersGet ++ " healthy servers deployed",
       data := [] }]
   else [])

/-- The terminal report of a polling session (source lines 296–305, 313–322,
329–338).  `durationSeconds` is the `duration_minutes` field in seconds;
`finalGithub`/`finalSmithery` are the `final_state` entries. -/
structure PipelineReport where
  status : String
  message : String
  durationSeconds : Int
  finalGithub : GithubStatus
  finalSmithery : SmitheryStatus
  timeline : List TimelineEvent
deriving DecidableEq, Repr

/-- Outcome of one `monitor_deployment_pipeline` call: a report, the
`UnboundLocalError` crash of the zero-iteration timeout return (carrying the
timeline as built before the crash), or fuel exhaustion (model artifact of a
loop whose model clock never advances). -/
inductive MonitorResult where
  | report (r : PipelineReport)
  | unboundLocal (timelineSoFar : List TimelineEvent)
  | outOfFuel
deriving DecidableEq, Repr

/-- Per-iteration behavior of the GitHub provider. -/
abbrev GithubTrace := Nat → ProviderBehavior (List WorkflowRun)

/-- Per-iteration behavior of the Smithery provider. -/
abbrev SmitheryTrace := Nat → ProviderBehavior (List SmitheryServer)

/-- The `while` loop of `monitor_deployment_pipeline` (source lines 244–338),
driven by fuel.  State: current iteration index, current clock, timeline so
far, and the provider responses of the previous iteration (`none` before the
first one — the Python locals `github_status`/`smithery_status` before first
assignment). -/
def monitorLoop (ghTrace : GithubTrace) (smTrace : SmitheryTrace)
    (check_interval_seconds max_duration_minutes start_time : Int) :
    Nat → Nat → Int → List TimelineEvent →
    Option (GithubStatus × SmitheryStatus) → MonitorResult
  | 0, _, _, _, _ => .outOfFuel
  | fuel + 1, iter, now, timeline, last =>
    if now - start_time < 60 * max_duration_minutes then
      let github_status := check_github_repo_status (ghTrace iter)
      let smithery_status := check_smithery_deployment (smTrace iter)
      let current_state := currentStateOf github_status smithery_status
      let timeline2 := timeline ++ iterationEvents now github_status smithery_status
      if successCond current_state then
        .report { status := "success"
                  message := "Pipeline monitoring completed successfully"
                  durationSeconds := now - start_time
                  finalGithub := github_status
                  finalSmithery := smithery_status
                  timeline := add_timeline_event timeline2 now "pipeline_success"
                    "✅ Complete pipeline success!" [] }
      else if failureCond current_state then
        .report { status := "failed"
                  message := "Pipeline failed: GitHub workflow "
                    ++ pyOptStr current_state.latest_run_conclusion
                  durationSeconds := now - start_time
                  finalGithub := github_status
                  finalSmithery := smithery_status
                  timeline := add_timeline_event timeline2 now "pipeline_failure"
                    ("❌ Pipeline failed at GitHub: "
                      ++ pyOptStr current_state.latest_run_conclusion) [] }
      else
        monitorLoop ghTrace smTrace check_interval_seconds max_duration_minutes
          start_time fuel (iter + 1) (now + max check_interval_seconds 0)
          timeline2 (some (github_status, smithery_status))
    else
      match last with
      | some (github_status, smithery_status) =>
        .report { status := "timeout"
                  message := "Pipeline monitoring timed out after "
                    ++ toString max_duration_minutes ++ " minutes"
                  durationSeconds := 60 * max_duration_minutes
                  finalGithub := github_status
                  finalSmithery := smithery_status
                  timeline := add_timeline_event timeline now "timeout"
                    ("Monitoring timed out after "
                      ++ toString max_duration_minutes ++ " minutes") [] }
      | none =>
        .unboundLocal (add_timeline_event timeline now "timeout"
          ("Monitoring timed out after "
            ++ toString max_duration_minutes ++ " minutes") [])

/-- The `start` timeline event appended at source line 242. -/
def startEvent (start_time : Int) (owner repo : String) : TimelineEvent :=
  { timestamp := start_time, event_type := "start",
    message := "Starting pipeline monitoring for " ++ owner ++ "/" ++ repo,
    data := [] }

/-- Source lines 220–338: record the start time, append the `start` event and
run the polling loop.  `start_time` is the wall clock at the call.  Fuel
`60 * max_duration_minutes + 1` covers every session whose clock advances by
at least one second per iteration (in particular every positive interval). -/
def monitor_deployment_pipeline (start_time : Int) (owner repo : String)
    (check_interval_seconds max_duration_minutes : Int)
    (ghTrace : GithubTrace) (smTrace : SmitheryTrace) : MonitorResult :=
  monitorLoop ghTrace smTrace check_interval_seconds max_duration_minutes
    start_time ((60 * max_duration_minutes).toNat + 1) 0 start_time
    (add_timeline_event [] start_time "start"
      ("Starting pipeline monitoring for " ++ owner ++ "/" ++ repo) [])
    none

/-- Status field of a result, when it is a report. -/
def MonitorResult.statusGet : MonitorResult → Option String
  | .report r => some r.status
  | _ => none

/-- Duration field of a result, when it is a report. -/
def MonitorResult.durationGet : MonitorResult → Option Int
  | .report r => some r.durationSeconds
  | _ => none

/-- Timeline carried by a result (for the crash case, the list as built
before the crash). -/
def MonitorResult.timelineGet : MonitorResult → List TimelineEvent
  | .report r => r.timeline
  | .unboundLocal tl => tl
  | .outOfFuel => []

/-- Event type of the last timeline entry. -/
def lastEventType (l : List TimelineEvent) : Option String :=
  l.getLast?.map (fun e => e.event_type)

/-- Number of timeline entries of a given event type. -/
def eventTypeCount (l : List TimelineEvent) (t : String) : Nat :=
  (l.filter (fun e => e.event_type == t)).length

/-- Event types of a timeline, in order. -/
def eventTypes (l : List TimelineEvent) : List String :=
  l.map (fun e => e.event_type)

/-- Timestamps along a timeline never decrease. -/
def tsMonotone (l : List TimelineEvent) : Prop :=
  l.Chain' (fun a b => a.timestamp ≤ b.timestamp)

/-- Timestamp of the last timeline entry. -/
def lastEventTimestamp (l : List TimelineEvent) : Option Int :=
  l.getLast?.map (fun e => e.timestamp)

/-- Final-state GitHub response of a result, when it is a report. -/
def MonitorResult.finalGithubGet : MonitorResult → Option GithubStatus
  | .report r => some r.finalGithub
  | _ => none

/-- Final-state Smithery response of a result, when it is a report. -/
def MonitorResult.finalSmitheryGet : MonitorResult → Option SmitheryStatus
  | .report r => some r.finalSmithery
  | _ => none

/-- Shape every returned report must have: terminal status from the closed
set, a non-empty timeline headed by the session's start event, and
non-decreasing timestamps.  Non-report outcomes make no report to constrain. -/
def reportWellFormed (t0 : Int) (owner repo : String) : MonitorResult → Prop
  | .report r =>
      (r.status = "success" ∨ r.status = "failed" ∨ r.status = "timeout")
      ∧ r.timeline ≠ []
      ∧ r.timeline.head? = some (startEvent t0 owner repo)
      ∧ tsMonotone r.timeline
  | _ => True

/-- How the duration field of a returned report relates to the session:
for success and failed reports it is the elapsed wall time at return (the
timestamp of the last timeline event minus the session start time), while a
timeout report carries the nominal configured duration
`60 * max_duration_minutes`, not the elapsed time. -/
def durationWellFormed (t0 mdm : Int) : MonitorResult → Prop
  | .report r =>
      ((r.status = "success" ∨ r.status = "failed") →
        lastEventTimestamp r.timeline = some (r.durationSeconds + t0))
      ∧ (r.status = "timeout" → r.durationSeconds = 60 * mdm)
  | _ => True

/-- Concrete workflow run: completed with outcome success. -/
def runGood : WorkflowRun :=
  { id := 1, status := "completed", conclusion := some "success",
    html_url := "https://g/run/1" }

/-- Concrete workflow run: completed with a null conclusion. -/
def runNullC : WorkflowRun :=
  { id := 2, status := "completed", conclusion := none,
    html_url := "https://g/run/2" }

/-- Concrete workflow run: completed with outcome failure. -/
def runFail : WorkflowRun :=
  { id := 3, status := "completed", conclusion := some "failure",
    html_url := "https://g/run/3" }

/-- Concrete Smithery server: deployed and passing its health probe. -/
def srvHealthy : SmitheryServer :=
  { deploymentUrl := some "https://s/1", probeHealthy := true }

/-- GitHub provider that always reports the successful run. -/
def ghGood : GithubTrace := fun _ => .responds [runGood]

/-- Smithery provider that always reports one healthy deployed server. -/
def smGood : SmitheryTrace := fun _ => .responds [srvHealthy]

/-- GitHub provider that always reports a completed run with null
conclusion. -/
def ghNull : GithubTrace := fun _ => .responds [runNullC]

/-- GitHub provider that always reports the failed run. -/
def ghFail : GithubTrace := fun _ => .responds [runFail]

/-- GitHub provider with no workflow runs. -/
def ghEmpty : GithubTrace := fun _ => .responds []

/-- Smithery provider with no registered servers. -/
def smEmpty : SmitheryTrace := fun _ => .responds []

/-- GitHub provider whose HTTP exchange always raises. -/
def ghRaise : GithubTrace := fun _ => .raises "boom"

/-- Smithery provider whose HTTP exchange always raises. -/
def smRaise : SmitheryTrace := fun _ => .raises "boom"

/-- GitHub provider that raises on the first iteration and reports the
successful run afterwards. -/
def ghErrThenGood : GithubTrace := fun n =>
  if n == 0 then .raises "ReadTimeout" else .responds [runGood]

/-- A list of events all stamped with one timestamp is monotone. -/
theorem tsMonotone_of_const : ∀ (l : List TimelineEvent) (c : Int),
    (∀ e ∈ l, e.timestamp = c) → tsMonotone l
  | [], _, _ => List.chain'_nil
  | [a], _, _ => List.chain'_singleton a
  | a :: b :: t, c, h => by
    rw [tsMonotone, List.chain'_cons]
    refine ⟨?_, tsMonotone_of_const (b :: t) c (fun e he => h e (by simp [he]))⟩
    rw [h a (by simp), h b (by simp)]

/-- Appending events stamped at a common bound keeps a timeline monotone. -/
theorem tsMonotone_append_const {l l' : List TimelineEvent} {c : Int}
    (h1 : tsMonotone l) (h2 : ∀ e ∈ l, e.timestamp ≤ c)
    (h3 : ∀ e ∈ l', e.timestamp = c) :
    tsMonotone (l ++ l') := by
  refine List.Chain'.append h1 (tsMonotone_of_const l' c h3) ?_
  intro x hx y hy
  obtain ⟨hne, hxl⟩ := List.mem_getLast?_eq_getLast hx
  have hx' : x ∈ l := hxl ▸ List.getLast_mem hne
  have hy' : y ∈ l' := by
    cases l' with
    | nil => simp at hy
    | cons a t => simp at hy; simp [hy]
  rw [h3 y hy']
  exact h2 x hx'

/-- Events produced by one loop iteration are all stamped with the current
clock. -/
theorem iterationEvents_timestamps (now : Int) (gh : GithubStatus)
    (sm : SmitheryStatus) :
    ∀ e ∈ iterationEvents now gh sm, e.timestamp = now := by
  intro e he
  unfold iterationEvents at he
  rcases List.mem_append.1 he with h | h
  · split at h
    · split at h
      · split at h <;> simp_all
      · simp at h
    · simp at h
  · split at h <;> simp_all

/-- Loop step: deadline passed with a previous iteration recorded returns the
timeout report. -/
theorem monitorLoop_exit_some (ghT : GithubTrace) (smT : SmitheryTrace)
    (ci mdm t0 : Int) (fuel iter : Nat) (now : Int)
    (timeline : List TimelineEvent) (g : GithubStatus) (s : SmitheryStatus)
    (h : ¬ now - t0 < 60 * mdm) :
    monitorLoop ghT smT ci mdm t0 (fuel + 1) iter now timeline (some (g, s)) =
      .report { status := "timeout"
                message := "Pipeline monitoring timed out after "
                  ++ toString mdm ++ " minutes"
                durationSeconds := 60 * mdm
                finalGithub := g
                finalSmithery := s
                timeline := add_timeline_event timeline now "timeout"
                  ("Monitoring timed out after " ++ toString mdm ++ " minutes") [] } := by
  simp [monitorLoop, h]

/-- Loop step: deadline passed before any iteration ran crashes on the
never-assigned locals of the timeout return. -/
theorem monitorLoop_exit_none (ghT : GithubTrace) (smT : SmitheryTrace)
    (ci mdm t0 : Int) (fuel iter : Nat) (now : Int)
    (timeline : List TimelineEvent)
    (h : ¬ now - t0 < 60 * mdm) :
    monitorLoop ghT smT ci mdm t0 (fuel + 1) iter now timeline none =
      .unboundLocal (add_timeline_event timeline now "timeout"
        ("Monitoring timed out after " ++ toString mdm ++ " minutes") []) := by
  simp [monitorLoop, h]

/-- Loop step: within the deadline and the success condition holds. -/
theorem monitorLoop_step_success (ghT : GithubTrace) (smT : SmitheryTrace)
    (ci mdm t0 : Int) (fuel iter : Nat) (now : Int)
    (timeline : List TimelineEvent) (last : Option (GithubStatus × SmitheryStatus))
    (h : now - t0 < 60 * mdm)
    (hs : successCond (currentStateOf (check_github_repo_status (ghT iter))
      (check_smithery_deployment (smT iter))) = true) :
    monitorLoop ghT smT ci mdm t0 (fuel + 1) iter now timeline last =
      .report { status := "success"
                message := "Pipeline monitoring completed successfully"
                durationSeconds := now - t0
                finalGithub := check_github_repo_status (ghT iter)
                finalSmithery := check_smithery_deployment (smT iter)
                timeline := add_timeline_event
                  (timeline ++ iterationEvents now (check_github_repo_status (ghT iter))
                    (check_smithery_deployment (smT iter)))
                  now "pipeline_success" "✅ Complete pipeline success!" [] } := by
  simp [monitorLoop, h, hs]

/-- Loop step: within the deadline, success fails, failure holds. -/
theorem monitorLoop_step_failure (ghT : GithubTrace) (smT : SmitheryTrace)
    (ci mdm t0 : Int) (fuel iter : Nat) (now : Int)
    (timeline : List TimelineEvent) (last : Option (GithubStatus × SmitheryStatus))
    (h : now - t0 < 60 * mdm)
    (hs : successCond (currentStateOf (check_github_repo_status (ghT iter))
      (check_smithery_deployment (smT iter))) = false)
    (hf : failureCond (currentStateOf (check_github_repo_status (ghT iter))
      (check_smithery_deployment (smT iter))) = true) :
    monitorLoop ghT smT ci mdm t0 (fuel + 1) iter now timeline last =
      .report { status := "failed"
                message := "Pipeline failed: GitHub workflow "
                  ++ pyOptStr (currentStateOf (check_github_repo_status (ghT iter))
                    (check_smithery_deployment (smT iter))).latest_run_conclusion
                durationSeconds := now - t0
                finalGithub := check_github_repo_status (ghT iter)
                finalSmithery := check_smithery_deployment (smT iter)
                timeline := add_timeline_event
                  (timeline ++ iterationEvents now (check_github_repo_status (ghT iter))
                    (check_smithery_deployment (smT iter)))
                  now "pipeline_failure"
                  ("❌ Pipeline failed at GitHub: "
                    ++ pyOptStr (currentStateOf (check_github_repo_status (ghT iter))
                      (check_smithery_deployment (smT iter))).latest_run_conclusion) [] } := by
  simp [monitorLoop, h, hs, hf]

/-- Loop step: within the deadline, neither condition holds; sleep and poll
again. -/
theorem monitorLoop_step_continue (ghT : GithubTrace) (smT : SmitheryTrace)
    (ci mdm t0 : Int) (fuel iter : Nat) (now : Int)
    (timeline : List TimelineEvent) (last : Option (GithubStatus × SmitheryStatus))
    (h : now - t0 < 60 * mdm)
    (hs : successCond (currentStateOf (check_github_repo_status (ghT iter))
      (check_smithery_deployment (smT iter))) = false)
    (hf : failureCond (currentStateOf (check_github_repo_status (ghT iter))
      (check_smithery_deployment (smT iter))) = false) :
    monitorLoop ghT smT ci mdm t0 (fuel + 1) iter now timeline last =
      monitorLoop ghT smT ci mdm t0 fuel (iter + 1) (now + max ci 0)
        (timeline ++ iterationEvents now (check_github_repo_status (ghT iter))
          (check_smithery_deployment (smT iter)))
        (some (check_github_repo_status (ghT iter),
          check_smithery_deployment (smT iter))) := by
  simp [monitorLoop, h, hs, hf]

/-- Loop invariant: every report the loop returns has a terminal status from
the closed set, a timeline extending the incoming one, and non-decreasing
timestamps (given that the incoming timeline is monotone and bounded by the
current clock). -/
theorem monitorLoop_report_inv (ghT : GithubTrace) (smT : SmitheryTrace)
    (ci mdm t0 : Int) :
    ∀ (fuel iter : Nat) (now : Int) (timeline : List TimelineEvent)
      (last : Option (GithubStatus × SmitheryStatus)) (r : PipelineReport),
      tsMonotone timeline → (∀ e ∈ timeline, e.timestamp ≤ now) →
      monitorLoop ghT smT ci mdm t0 fuel iter now timeline last = .report r →
      (r.status = "success" ∨ r.status = "failed" ∨ r.status = "timeout")
      ∧ (∃ rest, r.timeline = timeline ++ rest)
      ∧ tsMonotone r.timeline := by
  intro fuel
  induction fuel with
  | zero =>
    intro iter now timeline last r _ _ heq
    simp [monitorLoop] at heq
  | succ fuel ih =>
    intro iter now timeline last r hmono hbound heq
    by_cases h : now - t0 < 60 * mdm
    · cases hsb : successCond (currentStateOf (check_github_repo_status (ghT iter))
        (check_smithery_deployment (smT iter))) with
      | true =>
        rw [monitorLoop_step_success ghT smT ci mdm t0 fuel iter now timeline last h hsb] at heq
        injection heq with heq
        subst heq
        refine ⟨Or.inl rfl, ⟨_, by rw [add_timeline_event, List.append_assoc]⟩, ?_⟩
        rw [add_timeline_event, List.append_assoc]
        refine tsMonotone_append_const (c := now) hmono hbound ?_
        intro e he
        rcases List.mem_append.1 he with he | he
        · exact iterationEvents_timestamps now _ _ e he
        · simp at he
          simp [he]
      | false =>
        cases hfb : failureCond (currentStateOf (check_github_repo_status (ghT iter))
          (check_smithery_deployment (smT iter))) with
        | true =>
          rw [monitorLoop_step_failure ghT smT ci mdm t0 fuel iter now timeline last h hsb hfb] at heq
          injection heq with heq
          subst heq
          refine ⟨Or.inr (Or.inl rfl), ⟨_, by rw [add_timeline_event, List.append_assoc]⟩, ?_⟩
          rw [add_timeline_event, List.append_assoc]
          refine tsMonotone_append_const (c := now) hmono hbound ?_
          intro e he
          rcases List.mem_append.1 he with he | he
          · exact iterationEvents_timestamps now _ _ e he
          · simp at he
            simp [he]
        | false =>
          rw [monitorLoop_step_continue ghT smT ci mdm t0 fuel iter now timeline last h hsb hfb] at heq
          have hmono2 : tsMonotone (timeline ++ iterationEvents now
              (check_github_repo_status (ghT iter)) (check_smithery_deployment (smT iter))) :=
            tsMonotone_append_const (c := now) hmono hbound
              (iterationEvents_timestamps now _ _)
          have hbound2 : ∀ e ∈ timeline ++ iterationEvents now
              (check_github_repo_status (ghT iter)) (check_smithery_deployment (smT iter)),
              e.timestamp ≤ now + max ci 0 := by
            intro e he
            rcases List.mem_append.1 he with he | he
            · have := hbound e he
              have : e.timestamp ≤ now := this
              have hmax : (0 : Int) ≤ max ci 0 := le_max_right ci 0
              omega
            · have := iterationEvents_timestamps now _ _ e he
              have hmax : (0 : Int) ≤ max ci 0 := le_max_right ci 0
              omega
          obtain ⟨hstat, ⟨rest, hpre⟩, hmon⟩ := ih (iter + 1) (now + max ci 0) _ _ r hmono2 hbound2 heq
          exact ⟨hstat, ⟨_, by rw [hpre, List.append_assoc]⟩, hmon⟩
    · cases last with
      | some p =>
        obtain ⟨g, s⟩ := p
        rw [monitorLoop_exit_some ghT smT ci mdm t0 fuel iter now timeline g s h] at heq
        injection heq with heq
        subst heq
        refine ⟨Or.inr (Or.inr rfl), ⟨_, by rw [add_timeline_event]⟩, ?_⟩
        rw [add_timeline_event]
        refine tsMonotone_append_const (c := now) hmono hbound ?_
        intro e he
        simp at he
        simp [he]
      | none =>
        rw [monitorLoop_exit_none ghT smT ci mdm t0 fuel iter now timeline h] at heq
        simp at heq

/-- Loop invariant for the duration field: success and failed reports carry
the elapsed time at return (last event timestamp minus session start), while
timeout reports carry the nominal `60 * max_duration_minutes`. -/
theorem monitorLoop_duration_inv (ghT : GithubTrace) (smT : SmitheryTrace)
    (ci mdm t0 : Int) :
    ∀ (fuel iter : Nat) (now : Int) (timeline : List TimelineEvent)
      (last : Option (GithubStatus × SmitheryStatus)) (r : PipelineReport),
      monitorLoop ghT smT ci mdm t0 fuel iter now timeline last = .report r →
      ((r.status = "success" ∨ r.status = "failed") →
        lastEventTimestamp r.timeline = some (r.durationSeconds + t0))
      ∧ (r.status = "timeout" → r.durationSeconds = 60 * mdm) := by
  intro fuel
  induction fuel with
  | zero =>
    intro iter now timeline last r heq
    simp [monitorLoop] at heq
  | succ fuel ih =>
    intro iter now timeline last r heq
    by_cases h : now - t0 < 60 * mdm
    · cases hsb : successCond (currentStateOf (check_github_repo_status (ghT iter))
        (check_smithery_deployment (smT iter))) with
      | true =>
        rw [monitorLoop_step_success ghT smT ci mdm t0 fuel iter now timeline last h hsb] at heq
        injection heq with heq
        subst heq
        constructor
        · intro _
          simp [lastEventTimestamp, add_timeline_event]
        · intro habs
          simp at habs
      | false =>
        cases hfb : failureCond (currentStateOf (check_github_repo_status (ghT iter))
          (check_smithery_deployment (smT iter))) with
        | true =>
          rw [monitorLoop_step_failure ghT smT ci mdm t0 fuel iter now timeline last h hsb hfb] at heq
          injection heq with heq
          subst heq
          constructor
          · intro _
            simp [lastEventTimestamp, add_timeline_event]
          · intro habs
            simp at habs
        | false =>
          rw [monitorLoop_step_continue ghT smT ci mdm t0 fuel iter now timeline last h hsb hfb] at heq
          exact ih (iter + 1) (now + max ci 0) _ _ r heq
    · cases last with
      | some p =>
        obtain ⟨g, s⟩ := p
        rw [monitorLoop_exit_some ghT smT ci mdm t0 fuel iter now timeline g s h] at heq
        injection heq with heq
        subst heq
        constructor
        · rintro (habs | habs) <;> simp at habs
        · intro _
          rfl
      | none =>
        rw [monitorLoop_exit_none ghT smT ci mdm t0 fuel iter now timeline h] at heq
        simp at heq

/-- With a positive interval and enough fuel, the loop always produces a
report once either an iteration has run or the deadline has not yet passed. -/
theorem monitorLoop_total (ghT : GithubTrace) (smT : SmitheryTrace)
    (ci mdm t0 : Int) (hci : 0 < ci) :
    ∀ (fuel iter : Nat) (now : Int) (timeline : List TimelineEvent)
      (last : Option (GithubStatus × SmitheryStatus)),
      (60 * mdm - (now - t0)).toNat < fuel →
      (now - t0 < 60 * mdm ∨ last.isSome) →
      ∃ r, monitorLoop ghT smT ci mdm t0 fuel iter now timeline last = .report r := by
  intro fuel
  induction fuel with
  | zero =>
    intro iter now timeline last hfuel _
    exact absurd hfuel (Nat.not_lt_zero _)
  | succ fuel ih =>
    intro iter now timeline last hfuel hdis
    by_cases h : now - t0 < 60 * mdm
    · cases hsb : successCond (currentStateOf (check_github_repo_status (ghT iter))
        (check_smithery_deployment (smT iter))) with
      | true =>
        exact ⟨_, monitorLoop_step_success ghT smT ci mdm t0 fuel iter now timeline last h hsb⟩
      | false =>
        cases hfb : failureCond (currentStateOf (check_github_repo_status (ghT iter))
          (check_smithery_deployment (smT iter))) with
        | true =>
          exact ⟨_, monitorLoop_step_failure ghT smT ci mdm t0 fuel iter now timeline last h hsb hfb⟩
        | false =>
          rw [monitorLoop_step_continue ghT smT ci mdm t0 fuel iter now timeline last h hsb hfb]
          have hmax : max ci 0 = ci := max_eq_left hci.le
          refine ih (iter + 1) (now + max ci 0) _ _ ?_ (Or.inr rfl)
          rw [hmax]
          omega
    · cases last with
      | some p =>
        obtain ⟨g, s⟩ := p
        exact ⟨_, monitorLoop_exit_some ghT smT ci mdm t0 fuel iter now timeline g s h⟩
      | none =>
        rcases hdis with hd | hd
        · exact absurd hd h
        · simp at hd

/-- Loop invariant for sessions in which no executed iteration satisfies the
success or failure condition: the loop can only return a timeout report, its
timeline ends with the timeout event, and its final state holds the provider
responses of the last executed iteration (the unique n whose poll happened
before the deadline while poll n+1 would not). -/
theorem monitorLoop_timeout_inv (ghT : GithubTrace) (smT : SmitheryTrace)
    (ci mdm t0 : Int)
    (hnos : ∀ j : Nat, (j : Int) * max ci 0 < 60 * mdm →
      successCond (currentStateOf (check_github_repo_status (ghT j))
        (check_smithery_deployment (smT j))) = false
      ∧ failureCond (currentStateOf (check_github_repo_status (ghT j))
        (check_smithery_deployment (smT j))) = false) :
    ∀ (fuel iter : Nat) (now : Int) (timeline : List TimelineEvent)
      (last : Option (GithubStatus × SmitheryStatus)) (r : PipelineReport),
      now = t0 + (iter : Int) * max ci 0 →
      ((last = none ∧ iter = 0) ∨
        ∃ n : Nat, iter = n + 1 ∧ (n : Int) * max ci 0 < 60 * mdm
          ∧ last = some (check_github_repo_status (ghT n), check_smithery_deployment (smT n))) →
      monitorLoop ghT smT ci mdm t0 fuel iter now timeline last = .report r →
      r.status = "timeout"
      ∧ lastEventType r.timeline = some "timeout"
      ∧ ∃ n : Nat, (n : Int) * max ci 0 < 60 * mdm
          ∧ 60 * mdm ≤ ((n : Int) + 1) * max ci 0
          ∧ r.finalGithub = check_github_repo_status (ghT n)
          ∧ r.finalSmithery = check_smithery_deployment (smT n) := by
  intro fuel
  induction fuel with
  | zero =>
    intro iter now timeline last r _ _ heq
    simp [monitorLoop] at heq
  | succ fuel ih =>
    intro iter now timeline last r hnow hlast heq
    by_cases h : now - t0 < 60 * mdm
    · have helapsed : (iter : Int) * max ci 0 < 60 * mdm := by
        rw [hnow] at h
        linarith
      obtain ⟨hs, hf⟩ := hnos iter helapsed
      rw [monitorLoop_step_continue ghT smT ci mdm t0 fuel iter now timeline last h hs hf] at heq
      refine ih (iter + 1) (now + max ci 0) _ _ r ?_
        (Or.inr ⟨iter, rfl, helapsed, rfl⟩) heq
      push_cast
      rw [hnow]
      ring
    · rcases hlast with ⟨hl, _⟩ | ⟨n, hi, hn, hl⟩
      · subst hl
        rw [monitorLoop_exit_none ghT smT ci mdm t0 fuel iter now timeline h] at heq
        simp at heq
      · subst hl
        rw [monitorLoop_exit_some ghT smT ci mdm t0 fuel iter now timeline _ _ h] at heq
        injection heq with heq
        subst heq
        refine ⟨rfl, ?_, n, hn, ?_, rfl, rfl⟩
        · simp [lastEventType, add_timeline_event]
        · subst hi
          rw [hnow] at h
          push_cast at h
          linarith

/-- Last event type of a timeline after appending one event. -/
theorem lastEventType_concat (l : List TimelineEvent) (e : TimelineEvent) :
    lastEventType (l ++ [e]) = some e.event_type := by
  simp [lastEventType, List.getLast?_concat]

/-- Claim C1: if on the first poll iteration the build provider's most recent
run has status "completed" with outcome "success" and the deployment provider
reports deployed with a positive healthy count, the monitor returns a success
report after exactly one iteration (no sleep happened, so the reported
elapsed duration is 0 and no later trace entry is consulted), with a
pipeline_success event appended last. -/
theorem C1_success_first_iteration (t0 : Int) (owner repo : String)
    (ci mdm : Int) (ghT : GithubTrace) (smT : SmitheryTrace) (run : WorkflowRun)
    (hmdm : 0 < mdm)
    (hrun : (check_github_repo_status (ghT 0)).workflowRunsGet.head? = some run)
    (hst : run.status = "completed")
    (hcon : run.conclusion = some "success")
    (hdep : (check_smithery_deployment (smT 0)).deployedGet = true)
    (hhealthy : 0 < (check_smithery_deployment (smT 0)).healthyServersGet) :
    (monitor_deployment_pipeline t0 owner repo ci mdm ghT smT).statusGet = some "success"
    ∧ (monitor_deployment_pipeline t0 owner repo ci mdm ghT smT).durationGet = some 0
    ∧ lastEventType (monitor_deployment_pipeline t0 owner repo ci mdm ghT smT).timelineGet
        = some "pipeline_success" := by
  have hs : successCond (currentStateOf (check_github_repo_status (ghT 0))
      (check_smithery_deployment (smT 0))) = true := by
    simp [successCond, currentStateOf, hrun, hst, hcon, hdep, hhealthy]
  unfold monitor_deployment_pipeline
  rw [monitorLoop_step_success ghT smT ci mdm t0 _ 0 t0 _ none (by omega) hs]
  refine ⟨rfl, ?_, ?_⟩
  · simp [MonitorResult.durationGet]
  · exact lastEventType_concat _ _

/-- Witness for C1 at a concrete input: success trace, interval 30 s, max
duration 1 minute. -/
theorem C1_success_first_iteration_witness :
    (0 : Int) < 1
    ∧ (check_github_repo_status (ghGood 0)).workflowRunsGet.head? = some runGood
    ∧ runGood.status = "completed"
    ∧ runGood.conclusion = some "success"
    ∧ (check_smithery_deployment (smGood 0)).deployedGet = true
    ∧ 0 < (check_smithery_deployment (smGood 0)).healthyServersGet
    ∧ (monitor_deployment_pipeline 0 "octo" "app" 30 1 ghGood smGood).statusGet = some "success"
    ∧ (monitor_deployment_pipeline 0 "octo" "app" 30 1 ghGood smGood).durationGet = some 0
    ∧ lastEventType (monitor_deployment_pipeline 0 "octo" "app" 30 1 ghGood smGood).timelineGet
        = some "pipeline_success" :=
  ⟨by decide, by decide, by decide, by decide, by decide, by decide,
    C1_success_first_iteration 0 "octo" "app" 30 1 ghGood smGood runGood
      (by decide) (by decide) (by decide) (by decide) (by decide) (by decide)⟩

/-- Claim C2: if on the first poll iteration the most recent run has status
"completed" with a conclusion that is neither "success" nor null, the monitor
returns a failed report after exactly one iteration (elapsed duration 0),
with a pipeline_failure event appended last — for every deployment provider
trace, so independently of deployment state. -/
theorem C2_failure_first_iteration (t0 : Int) (owner repo : String)
    (ci mdm : Int) (ghT : GithubTrace) (smT : SmitheryTrace)
    (run : WorkflowRun) (c : String)
    (hmdm : 0 < mdm)
    (hrun : (check_github_repo_status (ghT 0)).workflowRunsGet.head? = some run)
    (hst : run.status = "completed")
    (hcon : run.conclusion = some c)
    (hcne : c ≠ "success") :
    (monitor_deployment_pipeline t0 owner repo ci mdm ghT smT).statusGet = some "failed"
    ∧ (monitor_deployment_pipeline t0 owner repo ci mdm ghT smT).durationGet = some 0
    ∧ lastEventType (monitor_deployment_pipeline t0 owner repo ci mdm ghT smT).timelineGet
        = some "pipeline_failure" := by
  have hs : successCond (currentStateOf (check_github_repo_status (ghT 0))
      (check_smithery_deployment (smT 0))) = false := by
    simp [successCond, currentStateOf, hrun, hcon, hcne]
  have hf : failureCond (currentStateOf (check_github_repo_status (ghT 0))
      (check_smithery_deployment (smT 0))) = true := by
    simp [failureCond, currentStateOf, hrun, hst, hcon, hcne]
  unfold monitor_deployment_pipeline
  rw [monitorLoop_step_failure ghT smT ci mdm t0 _ 0 t0 _ none (by omega) hs hf]
  exact ⟨rfl, by simp [MonitorResult.durationGet], lastEventType_concat _ _⟩

/-- Witness for C2 at a concrete input: the build failed while the deployment
provider reports a healthy deployed server, and the session still fails. -/
theorem C2_failure_first_iteration_witness :
    (0 : Int) < 1
    ∧ (check_github_repo_status (ghFail 0)).workflowRunsGet.head? = some runFail
    ∧ runFail.status = "completed"
    ∧ runFail.conclusion = some "failure"
    ∧ "failure" ≠ "success"
    ∧ (monitor_deployment_pipeline 0 "octo" "app" 30 1 ghFail smGood).statusGet = some "failed"
    ∧ (monitor_deployment_pipeline 0 "octo" "app" 30 1 ghFail smGood).durationGet = some 0
    ∧ lastEventType (monitor_deployment_pipeline 0 "octo" "app" 30 1 ghFail smGood).timelineGet
        = some "pipeline_failure" :=
  ⟨by decide, by decide, by decide, by decide, by decide,
    C2_failure_first_iteration 0 "octo" "app" 30 1 ghFail smGood runFail "failure"
      (by decide) (by decide) (by decide) (by decide) (by decide)⟩

/-- Claim C3: every returned report has status in the closed set success,
failed, timeout; its timeline is non-empty, starts with the session's start
event, and has non-decreasing timestamps. -/
theorem C3_report_shape (t0 : Int) (owner repo : String) (ci mdm : Int)
    (ghT : GithubTrace) (smT : SmitheryTrace) :
    reportWellFormed t0 owner repo
      (monitor_deployment_pipeline t0 owner repo ci mdm ghT smT) := by
  cases hres : monitor_deployment_pipeline t0 owner repo ci mdm ghT smT with
  | report r =>
    have hinv := monitorLoop_report_inv ghT smT ci mdm t0
      ((60 * mdm).toNat + 1) 0 t0 [startEvent t0 owner repo] none r
      (List.chain'_singleton _) (by simp [startEvent]) hres
    obtain ⟨hstat, ⟨rest, hpre⟩, hmon⟩ := hinv
    exact ⟨hstat, by simp [hpre], by simp [hpre], hmon⟩
  | unboundLocal tl => exact True.intro
  | outOfFuel => exact True.intro

/-- Claim C9: with valid inputs (positive interval and positive max
duration), every call returns a report — never an unhandled failure — for all
provider traces, including ones that raise on every iteration. -/
theorem C9_always_report (t0 : Int) (owner repo : String) (ci mdm : Int)
    (ghT : GithubTrace) (smT : SmitheryTrace)
    (hci : 0 < ci) (hmdm : 0 < mdm) :
    ∃ r, monitor_deployment_pipeline t0 owner repo ci mdm ghT smT = .report r := by
  unfold monitor_deployment_pipeline
  exact monitorLoop_total ghT smT ci mdm t0 hci ((60 * mdm).toNat + 1) 0 t0 _
    none (by omega) (Or.inl (by omega))

/-- Witness for C9 at a concrete input: both providers raise on every
iteration and the call still returns a report. -/
theorem C9_always_report_witness :
    (0 : Int) < 30 ∧ (0 : Int) < 1
    ∧ ∃ r, monitor_deployment_pipeline 0 "octo" "app" 30 1 ghRaise smRaise = .report r :=
  ⟨by decide, by decide,
    C9_always_report 0 "octo" "app" 30 1 ghRaise smRaise (by decide) (by decide)⟩

/-- Claim C10: whenever the most recent run is observed completed with a null
conclusion, the iteration appends a github_failure event, yet neither the
success condition nor the failure condition holds, so the loop takes its
continue branch and the session keeps polling. -/
theorem C10_null_conclusion_keeps_polling (now : Int) (gh : GithubStatus)
    (sm : SmitheryStatus) (run : WorkflowRun)
    (hhead : gh.workflowRunsGet.head? = some run)
    (hst : run.status = "completed")
    (hcon : run.conclusion = none) :
    "github_failure" ∈ eventTypes (iterationEvents now gh sm)
    ∧ successCond (currentStateOf gh sm) = false
    ∧ failureCond (currentStateOf gh sm) = false := by
  refine ⟨?_, ?_, ?_⟩
  · unfold iterationEvents eventTypes
    rw [hhead]
    simp [hst, hcon]
  · simp [successCond, currentStateOf, hhead, hcon]
  · simp [failureCond, currentStateOf, hhead, hcon]

/-- Witness for C10 at a concrete input. -/
theorem C10_null_conclusion_keeps_polling_witness :
    (GithubStatus.ok [runNullC]).workflowRunsGet.head? = some runNullC
    ∧ runNullC.status = "completed"
    ∧ runNullC.conclusion = none
    ∧ ("github_failure" ∈ eventTypes (iterationEvents 0 (GithubStatus.ok [runNullC])
        SmitheryStatus.noServers)
      ∧ successCond (currentStateOf (GithubStatus.ok [runNullC]) SmitheryStatus.noServers) = false
      ∧ failureCond (currentStateOf (GithubStatus.ok [runNullC]) SmitheryStatus.noServers) = false) :=
  ⟨by decide, by decide, by decide,
    C10_null_conclusion_keeps_polling 0 (GithubStatus.ok [runNullC])
      SmitheryStatus.noServers runNullC (by decide) (by decide) (by decide)⟩

/-- Claim C4: if no iteration polled before the deadline satisfies the
success or failure condition, the session returns a timeout report whose
timeline ends with the timeout event and whose final state carries the
provider responses of the last executed iteration (the unique n polled
before the deadline whose successor poll would have fallen on or after it). -/
theorem C4_timeout_report (t0 : Int) (owner repo : String) (ci mdm : Int)
    (ghT : GithubTrace) (smT : SmitheryTrace)
    (hci : 0 < ci) (hmdm : 0 < mdm)
    (hnos : ∀ j : Nat, (j : Int) * max ci 0 < 60 * mdm →
      successCond (currentStateOf (check_github_repo_status (ghT j))
        (check_smithery_deployment (smT j))) = false
      ∧ failureCond (currentStateOf (check_github_repo_status (ghT j))
        (check_smithery_deployment (smT j))) = false) :
    ∃ r, monitor_deployment_pipeline t0 owner repo ci mdm ghT smT = .report r
      ∧ r.status = "timeout"
      ∧ lastEventType r.timeline = some "timeout"
      ∧ ∃ n : Nat, (n : Int) * max ci 0 < 60 * mdm
          ∧ 60 * mdm ≤ ((n : Int) + 1) * max ci 0
          ∧ r.finalGithub = check_github_repo_status (ghT n)
          ∧ r.finalSmithery = check_smithery_deployment (smT n) := by
  obtain ⟨r, hr⟩ := monitorLoop_total ghT smT ci mdm t0 hci ((60 * mdm).toNat + 1)
    0 t0 [startEvent t0 owner repo] none (by omega) (Or.inl (by omega))
  refine ⟨r, hr, ?_⟩
  exact monitorLoop_timeout_inv ghT smT ci mdm t0 hnos ((60 * mdm).toNat + 1)
    0 t0 [startEvent t0 owner repo] none r (by simp) (Or.inl ⟨rfl, rfl⟩) hr

/-- Witness for C4 at a concrete input: no runs and no servers ever, interval
30 s, max duration 1 minute. -/
theorem C4_timeout_report_witness :
    ∃ r, monitor_deployment_pipeline 0 "octo" "app" 30 1 ghEmpty smEmpty = .report r
      ∧ r.status = "timeout"
      ∧ lastEventType r.timeline = some "timeout"
      ∧ ∃ n : Nat, (n : Int) * max 30 0 < 60 * 1
          ∧ 60 * 1 ≤ ((n : Int) + 1) * max 30 0
          ∧ r.finalGithub = check_github_repo_status (ghEmpty n)
          ∧ r.finalSmithery = check_smithery_deployment (smEmpty n) :=
  C4_timeout_report 0 "octo" "app" 30 1 ghEmpty smEmpty (by decide) (by decide)
    (fun _ _ => ⟨rfl, rfl⟩)

/-- Claim C5: an exception while reaching the build provider on iteration 0
is absorbed (its run status is recorded as absent/unknown, so neither
terminal condition can fire) and the loop continues; when iteration 1 then
satisfies the success condition, the session ends successfully at iteration 1
(elapsed duration exactly one poll interval). -/
theorem C5_transient_error_recovery (t0 : Int) (owner repo : String)
    (ci mdm : Int) (ghT : GithubTrace) (smT : SmitheryTrace)
    (e : String) (run : WorkflowRun)
    (hci : 0 < ci) (hreach : ci < 60 * mdm)
    (hgh0 : ghT 0 = .raises e)
    (hrun : (check_github_repo_status (ghT 1)).workflowRunsGet.head? = some run)
    (hst : run.status = "completed")
    (hcon : run.conclusion = some "success")
    (hdep : (check_smithery_deployment (smT 1)).deployedGet = true)
    (hhealthy : 0 < (check_smithery_deployment (smT 1)).healthyServersGet) :
    (currentStateOf (check_github_repo_status (ghT 0))
      (check_smithery_deployment (smT 0))).latest_run_status = none
    ∧ (monitor_deployment_pipeline t0 owner repo ci mdm ghT smT).statusGet = some "success"
    ∧ (monitor_deployment_pipeline t0 owner repo ci mdm ghT smT).durationGet = some ci := by
  have herr : check_github_repo_status (ghT 0) = .error ("GitHub API error: " ++ e) := by
    rw [hgh0]
    rfl
  have hs0 : successCond (currentStateOf (check_github_repo_status (ghT 0))
      (check_smithery_deployment (smT 0))) = false := by
    simp [successCond, currentStateOf, herr, GithubStatus.workflowRunsGet]
  have hf0 : failureCond (currentStateOf (check_github_repo_status (ghT 0))
      (check_smithery_deployment (smT 0))) = false := by
    simp [failureCond, currentStateOf, herr, GithubStatus.workflowRunsGet]
  have hs1 : successCond (currentStateOf (check_github_repo_status (ghT 1))
      (check_smithery_deployment (smT 1))) = true := by
    simp [successCond, currentStateOf, hrun, hst, hcon, hdep, hhealthy]
  have hmax : max ci 0 = ci := max_eq_left hci.le
  refine ⟨by simp [currentStateOf, herr, GithubStatus.workflowRunsGet], ?_⟩
  unfold monitor_deployment_pipeline
  obtain ⟨k, hk⟩ : ∃ k, (60 * mdm).toNat = k + 1 := ⟨(60 * mdm).toNat - 1, by omega⟩
  rw [hk]
  rw [monitorLoop_step_continue ghT smT ci mdm t0 (k + 1) 0 t0 _ none (by omega) hs0 hf0]
  rw [monitorLoop_step_success ghT smT ci mdm t0 k 1 (t0 + max ci 0) _ _
    (by rw [hmax]; omega) hs1]
  exact ⟨rfl, by simp [MonitorResult.durationGet, hmax]⟩

/-- Witness for C5 at a concrete input: the build provider raises on
iteration 0 and reports success afterwards. -/
theorem C5_transient_error_recovery_witness :
    (0 : Int) < 30 ∧ (30 : Int) < 60 * 1
    ∧ ghErrThenGood 0 = .raises "ReadTimeout"
    ∧ (check_github_repo_status (ghErrThenGood 1)).workflowRunsGet.head? = some runGood
    ∧ runGood.status = "completed"
    ∧ runGood.conclusion = some "success"
    ∧ (check_smithery_deployment (smGood 1)).deployedGet = true
    ∧ 0 < (check_smithery_deployment (smGood 1)).healthyServersGet
    ∧ ((currentStateOf (check_github_repo_status (ghErrThenGood 0))
        (check_smithery_deployment (smGood 0))).latest_run_status = none
      ∧ (monitor_deployment_pipeline 0 "octo" "app" 30 1 ghErrThenGood smGood).statusGet
          = some "success"
      ∧ (monitor_deployment_pipeline 0 "octo" "app" 30 1 ghErrThenGood smGood).durationGet
          = some 30) :=
  ⟨by decide, by decide, by decide, by decide, by decide, by decide, by decide, by decide,
    C5_transient_error_recovery 0 "octo" "app" 30 1 ghErrThenGood smGood
      "ReadTimeout" runGood (by decide) (by decide) (by decide) (by decide)
      (by decide) (by decide) (by decide) (by decide)⟩

/-- Counterexample to claim C6 as stated: a call with non-positive
poll interval (0) and positive max duration does not fail fast with a
caller-input error — it runs a normal session that queries the providers
(final state carries the provider response) and appends the start event. -/
theorem C6_no_validation_counterexample :
    (monitor_deployment_pipeline 0 "octo" "app" 0 5 ghGood smGood).statusGet = some "success"
    ∧ (monitor_deployment_pipeline 0 "octo" "app" 0 5 ghGood smGood).finalGithubGet
        = some (check_github_repo_status (ghGood 0))
    ∧ (monitor_deployment_pipeline 0 "octo" "app" 0 5 ghGood smGood).timelineGet.head?
        = some (startEvent 0 "octo" "app") := by
  decide

/-- Amended C6: the code performs no input validation.  With non-positive
max duration the loop body never runs and the final return statement reads
the never-assigned local github_status, crashing with an uncaught
UnboundLocalError — after the start and timeout events were appended and
without consulting any provider (the result is the same for every provider
trace).  With a non-positive interval alone the session simply runs (see the
counterexample). -/
theorem C6_nonpositive_duration_crash (t0 : Int) (owner repo : String)
    (ci mdm : Int) (ghT : GithubTrace) (smT : SmitheryTrace)
    (hmdm : mdm ≤ 0) :
    monitor_deployment_pipeline t0 owner repo ci mdm ghT smT =
      .unboundLocal [startEvent t0 owner repo,
        { timestamp := t0, event_type := "timeout",
          message := "Monitoring timed out after " ++ toString mdm ++ " minutes",
          data := [] }] := by
  unfold monitor_deployment_pipeline
  rw [monitorLoop_exit_none ghT smT ci mdm t0 ((60 * mdm).toNat) 0 t0 _ (by omega)]
  rfl

/-- Witness for the amended C6 at a concrete input. -/
theorem C6_nonpositive_duration_crash_witness :
    (0 : Int) ≤ 0
    ∧ monitor_deployment_pipeline 7 "octo" "app" 30 0 ghGood smGood =
      .unboundLocal [startEvent 7 "octo" "app",
        { timestamp := 7, event_type := "timeout",
          message := "Monitoring timed out after " ++ toString (0 : Int) ++ " minutes",
          data := [] }] :=
  ⟨by decide, C6_nonpositive_duration_crash 7 "octo" "app" 30 0 ghGood smGood (by decide)⟩

/-- Counterexample to claim C7 as stated: with constant provider traces (the
same completed-with-null-conclusion run and the same deployed server on every
iteration) a two-iteration session appends the github_failure and
smithery_status events twice each — events are not restricted to state
transitions. -/
theorem C7_repeated_events_counterexample :
    ghNull 0 = ghNull 1 ∧ smGood 0 = smGood 1
    ∧ eventTypeCount (monitor_deployment_pipeline 0 "octo" "app" 30 1 ghNull smGood).timelineGet
        "github_failure" = 2
    ∧ eventTypeCount (monitor_deployment_pipeline 0 "octo" "app" 30 1 ghNull smGood).timelineGet
        "smithery_status" = 2 := by
  refine ⟨rfl, rfl, by decide, by decide⟩

/-- Amended C7: the events appended by an iteration depend only on that
iteration's observed provider responses, with no comparison against earlier
state: a github_success (resp. github_failure) event is emitted exactly when
the most recent run is observed completed with (resp. without) conclusion
"success", and a smithery_status event exactly when the deployment response
says deployed — on every such iteration, repeated or not. -/
theorem C7_events_every_observation (now : Int) (gh : GithubStatus)
    (sm : SmitheryStatus) :
    ("github_success" ∈ eventTypes (iterationEvents now gh sm) ↔
      ∃ run, gh.workflowRunsGet.head? = some run ∧ run.status = "completed"
        ∧ run.conclusion = some "success")
    ∧ ("github_failure" ∈ eventTypes (iterationEvents now gh sm) ↔
      ∃ run, gh.workflowRunsGet.head? = some run ∧ run.status = "completed"
        ∧ run.conclusion ≠ some "success")
    ∧ ("smithery_status" ∈ eventTypes (iterationEvents now gh sm) ↔
        sm.deployedGet = true) := by
  unfold iterationEvents eventTypes
  rcases hh : gh.workflowRunsGet.head? with _ | run
  · cases hd : sm.deployedGet <;> simp_all
  · cases hd : sm.deployedGet <;>
      cases hst : run.status == "completed" <;>
        cases hc : run.conclusion == some "success" <;>
          simp_all

/-- Counterexample to claim C8 as stated: a session with a 3600 s interval
and a 1 minute max duration exits the loop 3600 s after start (the timeout
event is stamped 3600), yet the report's duration field holds the nominal 60
seconds worth of configured duration, not the elapsed wall time. -/
theorem C8_timeout_duration_counterexample :
    (monitor_deployment_pipeline 0 "octo" "app" 3600 1 ghEmpty smEmpty).statusGet = some "timeout"
    ∧ (monitor_deployment_pipeline 0 "octo" "app" 3600 1 ghEmpty smEmpty).durationGet = some 60
    ∧ lastEventTimestamp
        (monitor_deployment_pipeline 0 "octo" "app" 3600 1 ghEmpty smEmpty).timelineGet
        = some 3600
    ∧ (60 : Int) ≠ 3600 - 0 := by
  decide

/-- Amended C8: the duration field equals elapsed wall time only for success
and failed reports (it is the last event's timestamp minus the session start
time); a timeout report instead carries the configured nominal duration,
which can differ from the elapsed time. -/
theorem C8_duration_fields (t0 : Int) (owner repo : String) (ci mdm : Int)
    (ghT : GithubTrace) (smT : SmitheryTrace) :
    durationWellFormed t0 mdm (monitor_deployment_pipeline t0 owner repo ci mdm ghT smT) := by
  cases hres : monitor_deployment_pipeline t0 owner repo ci mdm ghT smT with
  | report r =>
    exact monitorLoop_duration_inv ghT smT ci mdm t0 ((60 * mdm).toNat + 1) 0 t0
      [startEvent t0 owner repo] none r hres
  | unboundLocal tl => exact True.intro
  | outOfFuel => exact True.intro
